import Mathlib

/-!
Shallow embedding of the quics CLI (src/unnamed/part_000, package main) and the
persistence stub (src/pkg/sync/repository.go), together with the parts of the
server engine that the spec describes but whose code is not under src/
(those definitions carry a doc comment starting with `Modelled from the spec:`).

The CLI is a cobra command tree.  Every flag is bound to a package-global
variable (part_000:129-139); each subcommand's RunE closure reads those
globals, builds an HTTP request URL by string concatenation, performs the
request through a rest client (not under src/), and for the show commands
decodes and prints the response.  We embed each RunE body as a pure function
from the global flag state and a network environment (the outcomes of the
external calls) to a record of its observable effects: the request it issued,
the lines it printed, the files it wrote, and the error it returned.
-/

namespace Quics

/-- The package-global flag variables of part_000:129-139 with their declared
zero values.  Every cobra flag of every subcommand is bound (via StringVarP /
BoolVarP / Uint64VarP, part_000:191-224) to one of these shared globals. -/
structure FlagState where
  all : Bool
  id : String
  path : String
  version : Nat
  target : String
  addr : String
  port : String
  port3 : String
  password : String
deriving DecidableEq, Repr

/-- The initial values assigned at part_000:129-139 and re-assigned as flag
defaults during registration (part_000:191-224): `false`, `""` and `0`.
`version` is a Go uint64; it is only compared with 0 and printed in decimal,
so we model it as a Nat (flag parsing guarantees it fits in 64 bits). -/
def defaultFlags : FlagState :=
  { all := false, id := "", path := "", version := 0, target := "",
    addr := "", port := "", port3 := "", password := "" }

/-- Global state after cobra parses a single `qis show client`, `qis show dir`,
`qis show file`, `qis show history`, `qis remove client`, `qis remove dir` or
`qis remove file` invocation: these seven subcommands all bind exactly the two
flags `--all` (to the global `all`) and `--id` (to the global `id`)
(part_000:201-220); every other global keeps its default. -/
def allIdState (a : Bool) (i : String) : FlagState :=
  { defaultFlags with all := a, id := i }

/-- Global state after cobra parses a single `qis download file` invocation:
it binds `--path`, `--version` and `--target` (part_000:222-224). -/
def downloadState (p : String) (v : Nat) (t : String) : FlagState :=
  { defaultFlags with path := p, version := v, target := t }

/-- Global state after cobra parses a single `qis password set` invocation:
it binds only `--pw` (part_000:199). -/
def passwordState (pw : String) : FlagState :=
  { defaultFlags with password := pw }

/-- Request bodies the CLI sends.  `empty` is the Go `nil` body; `server pw`
is `json.Marshal(types.Server{Password: pw})` (part_000:374-378), which for
this struct is total. -/
inductive Body where
  | empty
  | server (password : String)
deriving DecidableEq, Repr

/-- An HTTP request issued through the rest client (the client itself is not
under src/; the URL and body are built in part_000). -/
inductive Request where
  | get (url : String)
  | post (url : String) (contentType : String) (body : Body)
deriving DecidableEq, Repr

/-- Distinguishable failure modes a RunE body can return. -/
inductive CmdError where
  | network
  | closeFailed
  | createFailed
  | writeFailed
  | shortWrite
deriving DecidableEq, Repr

/-- A RunE body returns nil (ok) or an error. -/
inductive CmdResult where
  | ok
  | error (e : CmdError)
deriving DecidableEq, Repr

/-- `Run()` maps `rootCmd.Execute()` to the process exit code: error gives 1,
nil gives 0 (part_000:254-258). -/
def runExitCode : CmdResult → Nat
  | .ok => 0
  | .error _ => 1

/-- Outcome of the one external request a show/remove/password RunE performs:
the result of GetRequest/PostRequest (response bytes or an error) and whether
the subsequent Close succeeded. -/
structure NetEnv where
  reqResult : Except Unit (List Nat)
  closeOk : Bool
deriving Repr

/-- Outcomes of the external calls the download RunE performs, in program
order: GetRequest, Close, os.Create, and File.Write (which reports how many
bytes it wrote, or an error). -/
structure DownloadEnv where
  reqResult : Except Unit (List Nat)
  closeOk : Bool
  createOk : Bool
  writeResult : Except Unit Nat
deriving Repr

/-- `types.Client` as printed by show client (part_000:458-464). -/
structure Client where
  UUID : String
  Id : Int
  Ip : String
  Root : List String
deriving DecidableEq, Repr

/-- `types.RootDirectory` as printed by show dir (part_000:495-500). -/
structure RootDirectory where
  AfterPath : String
  Owner : String
  Password : String
  UUIDs : List String
deriving DecidableEq, Repr

/-- `types.FileMetadata` as far as show file reads it (part_000:535 prints
only `file.Metadata.ModTime`). -/
structure FileMetadata where
  ModTime : String
deriving DecidableEq, Repr

/-- `types.File` as printed by show file (part_000:531-535). -/
structure File where
  AfterPath : String
  RootDirKey : String
  LatestHash : String
  LatestSyncTimestamp : Nat
  ContentsExisted : Bool
  Metadata : FileMetadata
deriving DecidableEq, Repr

/-- `types.FileHistory` as printed by show history (part_000:566-571). -/
structure FileHistory where
  BeforePath : String
  AfterPath : String
  Date : String
  UUID : String
  Timestamp : Nat
  Hash : String
deriving DecidableEq, Repr

/-- Embeds `utils.UnmarshalRequestBody(body, v)` as called at part_000:459,
496, 532 and 567.  In the Go source the decode target `v` is a slice passed
BY VALUE (not `&v`): the callee receives a copy of the empty slice header, so
whatever it does it cannot change the caller's binding, and its error return
is discarded.  The caller-visible result of the call is therefore the
unchanged input list. -/
def unmarshalByValue {α : Type} (_body : List Nat) (v : List α) : List α := v

/-- The `log.Println("quics err: ", err)` line emitted on every failed
external call. -/
def quicsErrLine : String := "quics err:"

/-- Stand-in for the text `command.Help()` / `cmd.Help()` prints. -/
def helpLine : String := "<help>"

/-- Embeds `validateOptionByCommand` (part_000:726-732): when neither `--all`
nor `--id` is set it logs a message and prints help, then returns from
ITSELF; it has no way to abort the calling RunE, which continues
unconditionally.  Its caller-visible effect is only the printed lines. -/
def validateOptionByCommand (s : FlagState) : List String :=
  if !s.all && s.id == "" then
    ["quics:  Please enter only one option", helpLine]
  else
    []

/-- Observable effects of a show subcommand's RunE. -/
structure ShowEffects where
  logs : List String
  request : Request
  output : List String
  result : CmdResult
deriving DecidableEq, Repr

/-- Observable effects of a remove subcommand's RunE. -/
structure RemoveEffects where
  logs : List String
  request : Request
  result : CmdResult
deriving DecidableEq, Repr

/-- The printf line of show client (part_000:463), including the source's
spelling of "Directoreis". -/
def showClientLine (c : Client) (root : String) : String :=
  "*   UUID: " ++ c.UUID ++ "   |   ID: " ++ toString c.Id ++ "   |   IP: " ++
    c.Ip ++ "   |   Root Directoreis: " ++ root ++ "   *"

/-- URL built by show client (part_000:442). -/
def showClientUrl (s : FlagState) : String :=
  "/api/v1/server/logs/clients?uuid=" ++ s.id

/-- Embeds the RunE of `qis show client` (part_000:439-467). -/
def showClientRun (s : FlagState) (env : NetEnv) : ShowEffects :=
  let vlogs := validateOptionByCommand s
  let url := showClientUrl s
  match env.reqResult with
  | .error _ =>
    { logs := vlogs ++ [quicsErrLine], request := .get url, output := [],
      result := .error .network }
  | .ok respBytes =>
    if env.closeOk then
      let clients := unmarshalByValue respBytes ([] : List Client)
      { logs := vlogs, request := .get url,
        output := (clients.map (fun c => c.Root.map (showClientLine c))).flatten,
        result := .ok }
    else
      { logs := vlogs ++ [quicsErrLine], request := .get url, output := [],
        result := .error .closeFailed }

/-- The printf line of show dir (part_000:499). -/
def showDirLine (d : RootDirectory) (u : String) : String :=
  "*   Root Directory: " ++ d.AfterPath ++ "   |   Owner: " ++ d.Owner ++
    "   |   Password: " ++ d.Password ++ "   |   UUID: " ++ u ++ "   *"

/-- URL built by show dir (part_000:479): note it concatenates the global
`path`, not the global `id` that show dir's flags bind. -/
def showDirUrl (s : FlagState) : String :=
  "/api/v1/server/logs/directories?afterPath=" ++ s.path

/-- Embeds the RunE of `qis show dir` (part_000:476-503). -/
def showDirRun (s : FlagState) (env : NetEnv) : ShowEffects :=
  let vlogs := validateOptionByCommand s
  let url := showDirUrl s
  match env.reqResult with
  | .error _ =>
    { logs := vlogs ++ [quicsErrLine], request := .get url, output := [],
      result := .error .network }
  | .ok respBytes =>
    if env.closeOk then
      let dirs := unmarshalByValue respBytes ([] : List RootDirectory)
      { logs := vlogs, request := .get url,
        output := (dirs.map (fun d => d.UUIDs.map (showDirLine d))).flatten,
        result := .ok }
    else
      { logs := vlogs ++ [quicsErrLine], request := .get url, output := [],
        result := .error .closeFailed }

/-- URL built by show file (part_000:515): again from the global `path`. -/
def showFileUrl (s : FlagState) : String :=
  "/api/v1/server/logs/files?afterPath=" ++ s.path

/-- The printf line of show file (part_000:535). -/
def showFileLine (f : File) : String :=
  "*   File: " ++ f.AfterPath ++ "   |   Root Directory: " ++ f.RootDirKey ++
    "   |   LatestHash: " ++ f.LatestHash ++ "   |   LatestSyncTimestamp: " ++
    toString f.LatestSyncTimestamp ++ "   |   ContentsExisted: " ++
    (if f.ContentsExisted then "true" else "false") ++ "   |   Metadata: " ++
    f.Metadata.ModTime ++ "   *"

/-- Embeds the RunE of `qis show file` (part_000:512-538). -/
def showFileRun (s : FlagState) (env : NetEnv) : ShowEffects :=
  let vlogs := validateOptionByCommand s
  let url := showFileUrl s
  match env.reqResult with
  | .error _ =>
    { logs := vlogs ++ [quicsErrLine], request := .get url, output := [],
      result := .error .network }
  | .ok respBytes =>
    if env.closeOk then
      let files := unmarshalByValue respBytes ([] : List File)
      { logs := vlogs, request := .get url,
        output := files.map showFileLine,
        result := .ok }
    else
      { logs := vlogs ++ [quicsErrLine], request := .get url, output := [],
        result := .error .closeFailed }

/-- The printf line of show history (part_000:570). -/
def showHistoryLine (h : FileHistory) : String :=
  "*   Path: " ++ (h.BeforePath ++ h.AfterPath) ++ "   |   Date: " ++ h.Date ++
    "   |   UUID: " ++ h.UUID ++ "   |   Timestamp: " ++ toString h.Timestamp ++
    "   |   Hash: " ++ h.Hash ++ "   |*"

/-- URL built by show history (part_000:550): again from the global `path`. -/
def showHistoryUrl (s : FlagState) : String :=
  "/api/v1/server/logs/histories?afterPath=" ++ s.path

/-- Embeds the RunE of `qis show history` (part_000:547-573). -/
def showHistoryRun (s : FlagState) (env : NetEnv) : ShowEffects :=
  let vlogs := validateOptionByCommand s
  let url := showHistoryUrl s
  match env.reqResult with
  | .error _ =>
    { logs := vlogs ++ [quicsErrLine], request := .get url, output := [],
      result := .error .network }
  | .ok respBytes =>
    if env.closeOk then
      let histories := unmarshalByValue respBytes ([] : List FileHistory)
      { logs := vlogs, request := .get url,
        output := histories.map showHistoryLine,
        result := .ok }
    else
      { logs := vlogs ++ [quicsErrLine], request := .get url, output := [],
        result := .error .closeFailed }

/-- URL built by remove client (part_000:592): from the global `id`. -/
def removeClientUrl (s : FlagState) : String :=
  "/api/v1/server/remove/clients?uuid=" ++ s.id

/-- URL built by remove dir (part_000:620): from the global `path`, which
remove dir's flags (`--all`, `--id`) never bind. -/
def removeDirUrl (s : FlagState) : String :=
  "/api/v1/server/remove/directories?afterPath=" ++ s.path

/-- URL built by remove file (part_000:648): from the global `path`, which
remove file's flags (`--all`, `--id`) never bind. -/
def removeFileUrl (s : FlagState) : String :=
  "/api/v1/server/remove/files?afterPath=" ++ s.path

/-- Common shape of the three remove RunE bodies (part_000:589-666): validate
(which never aborts), PostRequest with nil body, Close, return. -/
def removeRunWith (url : String) (s : FlagState) (env : NetEnv) : RemoveEffects :=
  let vlogs := validateOptionByCommand s
  match env.reqResult with
  | .error _ =>
    { logs := vlogs ++ [quicsErrLine],
      request := .post url "application/json" .empty,
      result := .error .network }
  | .ok _ =>
    if env.closeOk then
      { logs := vlogs, request := .post url "application/json" .empty,
        result := .ok }
    else
      { logs := vlogs ++ [quicsErrLine],
        request := .post url "application/json" .empty,
        result := .error .closeFailed }

/-- Embeds the RunE of `qis remove client` (part_000:589-609). -/
def removeClientRun (s : FlagState) (env : NetEnv) : RemoveEffects :=
  removeRunWith (removeClientUrl s) s env

/-- Embeds the RunE of `qis remove dir` (part_000:617-637). -/
def removeDirRun (s : FlagState) (env : NetEnv) : RemoveEffects :=
  removeRunWith (removeDirUrl s) s env

/-- Embeds the RunE of `qis remove file` (part_000:645-665). -/
def removeFileRun (s : FlagState) (env : NetEnv) : RemoveEffects :=
  removeRunWith (removeFileUrl s) s env

/-- Observable effects of the password subcommands' RunE bodies. -/
structure PasswordEffects where
  logs : List String
  request : Option Request
  result : CmdResult
deriving DecidableEq, Repr

/-- Embeds the RunE of `qis password set` (part_000:365-398): with an empty
`--pw` it prints help and returns nil without any request; otherwise it POSTs
`json.Marshal(types.Server{Password: password})` to the fixed server-wide
endpoint.  No path or directory identifier appears anywhere in the request. -/
def passwordSetRun (s : FlagState) (env : NetEnv) : PasswordEffects :=
  if s.password == "" then
    { logs := ["quics:  Please enter password", helpLine], request := none,
      result := .ok }
  else
    let req := Request.post "/api/v1/server/password/set" "application/json"
      (.server s.password)
    match env.reqResult with
    | .error _ =>
      { logs := [quicsErrLine], request := some req, result := .error .network }
    | .ok _ =>
      if env.closeOk then
        { logs := [], request := some req, result := .ok }
      else
        { logs := [quicsErrLine], request := some req,
          result := .error .closeFailed }

/-- Embeds the RunE of `qis password reset` (part_000:407-424): a POST with
nil body to the fixed server-wide endpoint; no path is transmitted. -/
def passwordResetRun (_s : FlagState) (env : NetEnv) : PasswordEffects :=
  let req := Request.post "/api/v1/server/password/reset" "application/json"
    .empty
  match env.reqResult with
  | .error _ =>
    { logs := [quicsErrLine], request := some req, result := .error .network }
  | .ok _ =>
    if env.closeOk then
      { logs := [], request := some req, result := .ok }
    else
      { logs := [quicsErrLine], request := some req,
        result := .error .closeFailed }

/-- Observable effects of the download RunE. -/
structure DownloadEffects where
  logs : List String
  request : Option Request
  creates : List String
  writes : List (String × List Nat)
  result : CmdResult
deriving DecidableEq, Repr

/-- URL built by download file (part_000:687): `fmt.Sprint(version)` prints
the uint64 in decimal, matching `toString` on Nat. -/
def downloadFileUrl (s : FlagState) : String :=
  "/api/v1/server/download/files?afterPath=" ++ s.path ++ "&timestamp=" ++
    toString s.version

/-- Embeds the RunE of `qis download file` (part_000:680-718): guard on empty
path / zero version / empty target (help, return nil); GET; Close; os.Create
the target; Write the response bytes; return io.ErrShortWrite when the
reported count differs from the body length. -/
def downloadFileRun (s : FlagState) (env : DownloadEnv) : DownloadEffects :=
  if s.path = "" ∨ s.version = 0 ∨ s.target = "" then
    { logs := ["quics:  Please enter both path and version", helpLine],
      request := none, creates := [], writes := [], result := .ok }
  else
    let url := downloadFileUrl s
    match env.reqResult with
    | .error _ =>
      { logs := [quicsErrLine], request := some (.get url), creates := [],
        writes := [], result := .error .network }
    | .ok body =>
      if !env.closeOk then
        { logs := [quicsErrLine], request := some (.get url), creates := [],
          writes := [], result := .error .closeFailed }
      else if !env.createOk then
        { logs := [], request := some (.get url), creates := [],
          writes := [], result := .error .createFailed }
      else
        match env.writeResult with
        | .error _ =>
          { logs := [], request := some (.get url), creates := [s.target],
            writes := [(s.target, body)], result := .error .writeFailed }
        | .ok n =>
          if n ≠ body.length then
            { logs := [], request := some (.get url), creates := [s.target],
              writes := [(s.target, body)], result := .error .shortWrite }
          else
            { logs := [], request := some (.get url), creates := [s.target],
              writes := [(s.target, body)], result := .ok }

/-!
Server-side operations the spec describes whose implementations are not under
src/ (src/ holds only their CLI callers and, for the persistence adapter, an
empty interface declaration).  They are modelled from the spec's words.
-/

/-- Modelled from the spec: the History Log operation
`GetVersion(path, timestamp) -> FileHistory | NotFound` (spec section 4.5).
The implementation is not under src/ (only its CLI caller, the download file
command, is).  Per the spec it is an exact-match lookup: it returns a record
only when both the path and the version timestamp match, and `none` (NotFound)
otherwise — never a fallback to the latest version. -/
def GetVersion (histories : List FileHistory) (path : String) (timestamp : Nat) :
    Option FileHistory :=
  histories.find? (fun h => h.AfterPath == path && h.Timestamp == timestamp)

/-- Modelled from the spec: `SetPassword(path, newPassword)` of the Directory
Registry (spec section 4.3), not under src/.  A transactional overwrite of the
stored password of the directory with the given path key; every other
attribute, membership included, is untouched. -/
def SetPassword (dirs : List RootDirectory) (path newPassword : String) :
    List RootDirectory :=
  dirs.map (fun d =>
    if d.AfterPath == path then { d with Password := newPassword } else d)

/-- Modelled from the spec: the default secret `ResetPassword` restores. -/
def defaultSecret : String := "default"

/-- Modelled from the spec: `ResetPassword(path)` (spec section 4.3), not
under src/: restores the default secret, again overwriting only the stored
password. -/
def ResetPassword (dirs : List RootDirectory) (path : String) :
    List RootDirectory :=
  SetPassword dirs path defaultSecret

/-- Join failures per the spec's error taxonomy. -/
inductive JoinError where
  | notFound
  | unauthorized
deriving DecidableEq, Repr

/-- Modelled from the spec: `JoinRoot(path, clientUUID, suppliedPassword)`
(spec section 4.3), not under src/: fails Unauthorized when the supplied
password differs from the stored one, otherwise adds the client UUID to the
membership set idempotently. -/
def JoinRoot (dirs : List RootDirectory) (path clientUUID suppliedPassword : String) :
    Except JoinError (List RootDirectory) :=
  match dirs.find? (fun d => d.AfterPath == path) with
  | none => .error .notFound
  | some d =>
    if suppliedPassword == d.Password then
      .ok (dirs.map (fun e =>
        if e.AfterPath == path then
          { e with UUIDs := if e.UUIDs.contains clientUUID then e.UUIDs
                            else e.UUIDs ++ [clientUUID] }
        else e))
    else
      .error .unauthorized

/-!
Persistence adapter, modelled from the spec.  src/pkg/sync/repository.go
declares only `type RepositoryInterface interface {}` (no methods) and a
constructor wrapping a badger.DB handle; the adapter's operations are not
under src/.  Spec section 4.1: get/put/delete/scan-by-prefix over opaque byte
keys, and a scoped transaction under which all contained operations commit
atomically or none do.
-/

/-- Modelled from the spec: the adapter's state, a mapping from opaque byte
keys to byte values, represented as an association list whose most recent
binding for a key comes first. -/
abbrev Store := List (List Nat × List Nat)

/-- Modelled from the spec: `get` over opaque byte keys. -/
def storeGet (st : Store) (k : List Nat) : Option (List Nat) :=
  (st.find? (fun e => e.1 == k)).map (fun e => e.2)

/-- Modelled from the spec: `put` over opaque byte keys. -/
def storePut (st : Store) (k v : List Nat) : Store :=
  (k, v) :: st.filter (fun e => e.1 != k)

/-- Modelled from the spec: `delete` over opaque byte keys. -/
def storeDelete (st : Store) (k : List Nat) : Store :=
  st.filter (fun e => e.1 != k)

/-- Modelled from the spec: scan-by-prefix over opaque byte keys: every entry
whose key starts with the given byte prefix. -/
def prefixScan (st : Store) (p : List Nat) : Store :=
  st.filter (fun e => p.isPrefixOf e.1)

/-- A write operation contained in a scoped transaction. -/
inductive KvOp where
  | put (k v : List Nat)
  | delete (k : List Nat)
deriving DecidableEq, Repr

/-- Applying one contained operation to the store. -/
def applyOp (st : Store) (op : KvOp) : Store :=
  match op with
  | .put k v => storePut st k v
  | .delete k => storeDelete st k

/-- Outcome of a scoped transaction: committed with the new store, or aborted
(Conflict / rollback) with the store unchanged. -/
inductive TxOutcome where
  | committed (st : Store)
  | aborted (st : Store)
deriving DecidableEq, Repr

/-- Modelled from the spec: the scoped transaction.  `conflict` abstracts the
store's conflict detection: on conflict the transaction aborts and the store
is exactly as before; otherwise every contained operation is applied. -/
def runTransaction (st : Store) (ops : List KvOp) (conflict : Bool) : TxOutcome :=
  if conflict then .aborted st else .committed (ops.foldl applyOp st)

/-! Helper lemmas shared by the claim theorems. -/

/-- A network environment whose request and close both succeed. -/
def okEnv : NetEnv := { reqResult := .ok [], closeOk := true }

theorem showClientRun_request (s : FlagState) (env : NetEnv) :
    (showClientRun s env).request = .get (showClientUrl s) := by
  unfold showClientRun
  rcases env with ⟨rr, co⟩
  cases rr with
  | error e => rfl
  | ok b => cases co <;> rfl

theorem showDirRun_request (s : FlagState) (env : NetEnv) :
    (showDirRun s env).request = .get (showDirUrl s) := by
  unfold showDirRun
  rcases env with ⟨rr, co⟩
  cases rr with
  | error e => rfl
  | ok b => cases co <;> rfl

theorem showFileRun_request (s : FlagState) (env : NetEnv) :
    (showFileRun s env).request = .get (showFileUrl s) := by
  unfold showFileRun
  rcases env with ⟨rr, co⟩
  cases rr with
  | error e => rfl
  | ok b => cases co <;> rfl

theorem showHistoryRun_request (s : FlagState) (env : NetEnv) :
    (showHistoryRun s env).request = .get (showHistoryUrl s) := by
  unfold showHistoryRun
  rcases env with ⟨rr, co⟩
  cases rr with
  | error e => rfl
  | ok b => cases co <;> rfl

theorem removeRunWith_request (url : String) (s : FlagState) (env : NetEnv) :
    (removeRunWith url s env).request = .post url "application/json" .empty := by
  unfold removeRunWith
  rcases env with ⟨rr, co⟩
  cases rr with
  | error e => rfl
  | ok b => cases co <;> rfl

theorem removeRunWith_ok (url : String) (s : FlagState) (env : NetEnv)
    (b : List Nat) (hr : env.reqResult = .ok b) (hc : env.closeOk = true) :
    (removeRunWith url s env).result = .ok := by
  unfold removeRunWith
  rw [hr, hc]
  rfl

theorem downloadFileRun_request (s : FlagState) (env : DownloadEnv)
    (hguard : ¬ (s.path = "" ∨ s.version = 0 ∨ s.target = "")) :
    (downloadFileRun s env).request = some (.get (downloadFileUrl s)) := by
  unfold downloadFileRun
  rw [if_neg hguard]
  rcases env with ⟨rr, co, cr, wr⟩
  cases rr with
  | error e => rfl
  | ok b =>
    cases co <;> cases cr <;> dsimp only <;> try rfl
    cases wr with
    | error e => rfl
    | ok n =>
      dsimp only
      by_cases hn : n = b.length <;> simp [hn]

theorem SetPassword_cons (d : RootDirectory) (rest : List RootDirectory)
    (path np : String) :
    SetPassword (d :: rest) path np =
      (if d.AfterPath == path then { d with Password := np } else d) ::
        SetPassword rest path np := rfl

theorem find?_SetPassword (dirs : List RootDirectory) (path np : String) :
    (SetPassword dirs path np).find? (fun d => d.AfterPath == path) =
      (dirs.find? (fun d => d.AfterPath == path)).map
        (fun d => { d with Password := np }) := by
  induction dirs with
  | nil => rfl
  | cons d rest ih =>
    rw [SetPassword_cons]
    by_cases h : d.AfterPath = path
    · rw [if_pos (by simp [h]), List.find?_cons_of_pos _ (by simp [h]),
        List.find?_cons_of_pos _ (by simp [h])]
      rfl
    · rw [if_neg (by simp [h]), List.find?_cons_of_neg _ (by simp [h]),
        List.find?_cons_of_neg _ (by simp [h])]
      exact ih

theorem SetPassword_frame (dirs : List RootDirectory) (path np : String) :
    (SetPassword dirs path np).map (fun d => (d.AfterPath, d.Owner, d.UUIDs)) =
      dirs.map (fun d => (d.AfterPath, d.Owner, d.UUIDs)) := by
  unfold SetPassword
  rw [List.map_map]
  apply List.map_congr_left
  intro d _
  by_cases h : d.AfterPath = path <;> simp [h]

theorem JoinRoot_SetPassword_stale (dirs : List RootDirectory)
    (path np old u : String) (hne : old ≠ np)
    (hfind : (dirs.find? (fun d => d.AfterPath == path)).isSome = true) :
    JoinRoot (SetPassword dirs path np) path u old = .error .unauthorized := by
  obtain ⟨d, hd⟩ := Option.isSome_iff_exists.mp hfind
  unfold JoinRoot
  rw [find?_SetPassword, hd]
  simp [hne]

theorem JoinRoot_SetPassword_fresh (dirs : List RootDirectory)
    (path np u : String)
    (hfind : (dirs.find? (fun d => d.AfterPath == path)).isSome = true) :
    ∃ dirs2, JoinRoot (SetPassword dirs path np) path u np = .ok dirs2 := by
  obtain ⟨d, hd⟩ := Option.isSome_iff_exists.mp hfind
  unfold JoinRoot
  rw [find?_SetPassword, hd]
  simp

theorem storeGet_cons_ne (e : List Nat × List Nat) (st : Store) (k : List Nat)
    (h : e.1 ≠ k) : storeGet (e :: st) k = storeGet st k := by
  unfold storeGet
  rw [List.find?_cons_of_neg _ (by simp [h])]

theorem storeGet_filter_ne (st : Store) (k k2 : List Nat) (h : k2 ≠ k) :
    storeGet (st.filter (fun e => e.1 != k)) k2 = storeGet st k2 := by
  induction st with
  | nil => rfl
  | cons e rest ih =>
    by_cases he : e.1 = k
    · rw [List.filter_cons_of_neg (by simp [he]),
        storeGet_cons_ne e rest k2 (by rw [he]; exact fun hh => h hh.symm)]
      exact ih
    · rw [List.filter_cons_of_pos (by simp [he])]
      by_cases hp : e.1 = k2
      · unfold storeGet
        rw [List.find?_cons_of_pos _ (by simp [hp]),
          List.find?_cons_of_pos _ (by simp [hp])]
      · rw [storeGet_cons_ne e _ k2 hp, storeGet_cons_ne e rest k2 hp]
        exact ih

theorem storeGet_storePut_self (st : Store) (k v : List Nat) :
    storeGet (storePut st k v) k = some v := by
  unfold storeGet storePut
  rw [List.find?_cons_of_pos _ (by simp)]
  rfl

theorem storeGet_storePut_other (st : Store) (k v k2 : List Nat) (h : k2 ≠ k) :
    storeGet (storePut st k v) k2 = storeGet st k2 := by
  unfold storePut
  rw [storeGet_cons_ne (k, v) _ k2 (fun hh => h hh.symm)]
  exact storeGet_filter_ne st k k2 h

theorem storeGet_storeDelete_self (st : Store) (k : List Nat) :
    storeGet (storeDelete st k) k = none := by
  unfold storeGet storeDelete
  have hnone :
      List.find? (fun e => e.1 == k) (List.filter (fun e => e.1 != k) st) = none := by
    rw [List.find?_eq_none]
    intro e he
    have h2 := List.of_mem_filter he
    simp only [bne_iff_ne, ne_eq] at h2
    simp [h2]
  rw [hnone]
  rfl

theorem storeGet_storeDelete_other (st : Store) (k k2 : List Nat) (h : k2 ≠ k) :
    storeGet (storeDelete st k) k2 = storeGet st k2 :=
  storeGet_filter_ne st k k2 h

theorem mem_prefixScan (st : Store) (p : List Nat) (e : List Nat × List Nat) :
    e ∈ prefixScan st p ↔ e ∈ st ∧ p.isPrefixOf e.1 = true := by
  unfold prefixScan
  exact List.mem_filter

theorem runTransaction_all_or_nothing (st : Store) (ops : List KvOp)
    (conflict : Bool) :
    runTransaction st ops conflict = .aborted st ∨
      runTransaction st ops conflict = .committed (ops.foldl applyOp st) := by
  cases conflict with
  | true => exact Or.inl rfl
  | false => exact Or.inr rfl

/-! Claim theorems. -/

/-- C1: with a non-empty path, a non-zero version and a non-empty target, the
download-file command issues exactly one GET carrying the supplied
(path, timestamp) pair; on a successful response it passes the response body
verbatim to the write on the target file, succeeds exactly when the reported
write count equals the body length, and reports a short write as
io.ErrShortWrite rather than succeeding. -/
theorem download_file_exact_request_and_verbatim_write
    (s : FlagState) (env : DownloadEnv) (body : List Nat) (n : Nat)
    (hp : s.path ≠ "") (hv : s.version ≠ 0) (ht : s.target ≠ "")
    (hr : env.reqResult = .ok body) (hc : env.closeOk = true)
    (hcr : env.createOk = true) (hw : env.writeResult = .ok n) :
    (downloadFileRun s env).request =
      some (.get ("/api/v1/server/download/files?afterPath=" ++ s.path ++
        "&timestamp=" ++ toString s.version)) ∧
    (downloadFileRun s env).writes = [(s.target, body)] ∧
    ((downloadFileRun s env).result = .ok ↔ n = body.length) ∧
    (n ≠ body.length → (downloadFileRun s env).result = .error .shortWrite) := by
  have hguard : ¬ (s.path = "" ∨ s.version = 0 ∨ s.target = "") := by
    simp [hp, hv, ht]
  refine ⟨downloadFileRun_request s env hguard, ?_, ?_, ?_⟩ <;>
    by_cases hn : n = body.length <;>
    simp [downloadFileRun, hguard, hr, hc, hcr, hw, hn]

/-- Witness for C1 at path `/a`, version 5, target `/t`, a 2-byte body and a
full write of 2 bytes. -/
theorem download_file_exact_request_witness :
    (downloadFileRun (downloadState "/a" 5 "/t")
        ⟨.ok [7, 8], true, true, .ok 2⟩).writes = [("/t", [7, 8])] :=
  (download_file_exact_request_and_verbatim_write
    (downloadState "/a" 5 "/t") ⟨.ok [7, 8], true, true, .ok 2⟩ [7, 8] 2
    (by decide) (by decide) (by decide) rfl rfl rfl rfl).2.1

/-- C2: the download caller transmits the exact requested timestamp in its
GET request, and the spec-modelled History Log GetVersion is an exact-match
lookup: any record it returns matches both the path and the timestamp, and if
no record matches it returns none (NotFound) instead of falling back to the
latest version. -/
theorem download_by_version_exact_match
    (s : FlagState) (env : DownloadEnv) (histories : List FileHistory)
    (hp : s.path ≠ "") (hv : s.version ≠ 0) (ht : s.target ≠ "") :
    (downloadFileRun s env).request =
      some (.get ("/api/v1/server/download/files?afterPath=" ++ s.path ++
        "&timestamp=" ++ toString s.version)) ∧
    (∀ fh, GetVersion histories s.path s.version = some fh →
      fh.AfterPath = s.path ∧ fh.Timestamp = s.version) ∧
    ((∀ fh ∈ histories, ¬ (fh.AfterPath = s.path ∧ fh.Timestamp = s.version)) →
      GetVersion histories s.path s.version = none) := by
  have hguard : ¬ (s.path = "" ∨ s.version = 0 ∨ s.target = "") := by
    simp [hp, hv, ht]
  refine ⟨downloadFileRun_request s env hguard, ?_, ?_⟩
  · intro fh h
    have hpred := List.find?_some h
    simp only [Bool.and_eq_true, beq_iff_eq] at hpred
    exact hpred
  · intro hno
    unfold GetVersion
    rw [List.find?_eq_none]
    intro fh hin
    simp only [Bool.and_eq_true, beq_iff_eq, not_and]
    intro h1 h2
    exact hno fh hin ⟨h1, h2⟩

/-- Witness for C2 at path `/a`, requested version 6, against a history whose
only record for `/a` has timestamp 5: the lookup yields NotFound instead of
falling back to that latest record. -/
theorem download_by_version_exact_match_witness :
    GetVersion [⟨"", "/a", "d", "u", 5, "h1"⟩] "/a" 6 = none :=
  (download_by_version_exact_match (downloadState "/a" 6 "/t")
    ⟨.ok [], true, true, .ok 0⟩ [⟨"", "/a", "d", "u", 5, "h1"⟩]
    (by decide) (by decide) (by decide)).2.2 (by decide)

/-- C9: with an empty path, a zero version or an empty target, the
download-file command issues no request, creates and writes no file, and
returns nil, which `Run()` maps to exit code 0; consequently a request with a
zero version timestamp can never be issued through this command. -/
theorem download_file_guard_silently_succeeds
    (s : FlagState) (env : DownloadEnv)
    (h : s.path = "" ∨ s.version = 0 ∨ s.target = "") :
    (downloadFileRun s env).request = none ∧
    (downloadFileRun s env).creates = [] ∧
    (downloadFileRun s env).writes = [] ∧
    (downloadFileRun s env).result = .ok ∧
    runExitCode (downloadFileRun s env).result = 0 ∧
    (∀ s2 : FlagState, ∀ env2 : DownloadEnv,
      (downloadFileRun s2 env2).request ≠ none → s2.version ≠ 0) := by
  have he : downloadFileRun s env =
      { logs := ["quics:  Please enter both path and version", helpLine],
        request := none, creates := [], writes := [], result := .ok } := by
    unfold downloadFileRun
    rw [if_pos h]
  refine ⟨by rw [he], by rw [he], by rw [he], by rw [he], by rw [he]; rfl, ?_⟩
  intro s2 env2 hreq h0
  apply hreq
  unfold downloadFileRun
  rw [if_pos (Or.inr (Or.inl h0))]

/-- Witness for C9 at the all-default invocation `qis download file`. -/
theorem download_file_guard_witness :
    (downloadFileRun (downloadState "" 0 "") ⟨.ok [], true, true, .ok 0⟩).request
      = none :=
  (download_file_guard_silently_succeeds (downloadState "" 0 "")
    ⟨.ok [], true, true, .ok 0⟩ (Or.inl rfl)).1

theorem showClientRun_ok (s : FlagState) (env : NetEnv) (b : List Nat)
    (hr : env.reqResult = .ok b) (hc : env.closeOk = true) :
    (showClientRun s env).result = .ok := by
  unfold showClientRun
  rw [hr, hc]
  rfl

theorem showDirRun_ok (s : FlagState) (env : NetEnv) (b : List Nat)
    (hr : env.reqResult = .ok b) (hc : env.closeOk = true) :
    (showDirRun s env).result = .ok := by
  unfold showDirRun
  rw [hr, hc]
  rfl

theorem showFileRun_ok (s : FlagState) (env : NetEnv) (b : List Nat)
    (hr : env.reqResult = .ok b) (hc : env.closeOk = true) :
    (showFileRun s env).result = .ok := by
  unfold showFileRun
  rw [hr, hc]
  rfl

theorem showHistoryRun_ok (s : FlagState) (env : NetEnv) (b : List Nat)
    (hr : env.reqResult = .ok b) (hc : env.closeOk = true) :
    (showHistoryRun s env).result = .ok := by
  unfold showHistoryRun
  rw [hr, hc]
  rfl

/-- C8: a show or remove subcommand invoked with neither `--all` nor `--id`
(all globals at their defaults) still issues its request with an empty
identifier and returns nil: validateOptionByCommand only yields its printed
lines and cannot abort the calling RunE. -/
theorem no_option_still_requests_and_succeeds
    (env : NetEnv) (b : List Nat)
    (hr : env.reqResult = .ok b) (hc : env.closeOk = true) :
    validateOptionByCommand (allIdState false "") =
      ["quics:  Please enter only one option", helpLine] ∧
    (showClientRun (allIdState false "") env).request =
      .get "/api/v1/server/logs/clients?uuid=" ∧
    (showClientRun (allIdState false "") env).result = .ok ∧
    (showDirRun (allIdState false "") env).request =
      .get "/api/v1/server/logs/directories?afterPath=" ∧
    (showDirRun (allIdState false "") env).result = .ok ∧
    (showFileRun (allIdState false "") env).request =
      .get "/api/v1/server/logs/files?afterPath=" ∧
    (showFileRun (allIdState false "") env).result = .ok ∧
    (showHistoryRun (allIdState false "") env).request =
      .get "/api/v1/server/logs/histories?afterPath=" ∧
    (showHistoryRun (allIdState false "") env).result = .ok ∧
    (removeClientRun (allIdState false "") env).request =
      .post "/api/v1/server/remove/clients?uuid=" "application/json" .empty ∧
    (removeClientRun (allIdState false "") env).result = .ok ∧
    (removeDirRun (allIdState false "") env).request =
      .post "/api/v1/server/remove/directories?afterPath=" "application/json"
        .empty ∧
    (removeDirRun (allIdState false "") env).result = .ok ∧
    (removeFileRun (allIdState false "") env).request =
      .post "/api/v1/server/remove/files?afterPath=" "application/json" .empty ∧
    (removeFileRun (allIdState false "") env).result = .ok := by
  refine ⟨rfl, showClientRun_request _ env, showClientRun_ok _ env b hr hc,
    showDirRun_request _ env, showDirRun_ok _ env b hr hc,
    showFileRun_request _ env, showFileRun_ok _ env b hr hc,
    showHistoryRun_request _ env, showHistoryRun_ok _ env b hr hc,
    removeRunWith_request _ _ env, removeRunWith_ok _ _ env b hr hc,
    removeRunWith_request _ _ env, removeRunWith_ok _ _ env b hr hc,
    removeRunWith_request _ _ env, removeRunWith_ok _ _ env b hr hc⟩

/-- Witness for C8 with a successful network environment. -/
theorem no_option_still_requests_witness :
    (removeClientRun (allIdState false "") okEnv).request =
      .post "/api/v1/server/remove/clients?uuid=" "application/json" .empty :=
  (no_option_still_requests_and_succeeds okEnv [] rfl rfl).2.2.2.2.2.2.2.2.2.1

/-- C10: the show dir, show file, show history, remove dir and remove file
commands build their query strings from the global `path` variable, which
none of them binds (their flags set only `all` and `id`); in a single-command
invocation the transmitted identifier is therefore empty whatever `--all` or
`--id` was passed, and changing the `id` global never changes any of these
five requests. -/
theorem path_commands_never_transmit_id
    (a : Bool) (i : String) (env : NetEnv) :
    (showDirRun (allIdState a i) env).request =
      .get "/api/v1/server/logs/directories?afterPath=" ∧
    (showFileRun (allIdState a i) env).request =
      .get "/api/v1/server/logs/files?afterPath=" ∧
    (showHistoryRun (allIdState a i) env).request =
      .get "/api/v1/server/logs/histories?afterPath=" ∧
    (removeDirRun (allIdState a i) env).request =
      .post "/api/v1/server/remove/directories?afterPath=" "application/json"
        .empty ∧
    (removeFileRun (allIdState a i) env).request =
      .post "/api/v1/server/remove/files?afterPath=" "application/json" .empty ∧
    (∀ s : FlagState, ∀ i2 : String,
      (showDirRun { s with id := i2 } env).request = (showDirRun s env).request ∧
      (showFileRun { s with id := i2 } env).request = (showFileRun s env).request ∧
      (showHistoryRun { s with id := i2 } env).request =
        (showHistoryRun s env).request ∧
      (removeDirRun { s with id := i2 } env).request =
        (removeDirRun s env).request ∧
      (removeFileRun { s with id := i2 } env).request =
        (removeFileRun s env).request) := by
  refine ⟨showDirRun_request _ env, showFileRun_request _ env,
    showHistoryRun_request _ env, removeRunWith_request _ _ env,
    removeRunWith_request _ _ env, ?_⟩
  intro s i2
  refine ⟨?_, ?_, ?_, ?_, ?_⟩
  · rw [showDirRun_request, showDirRun_request]
    rfl
  · rw [showFileRun_request, showFileRun_request]
    rfl
  · rw [showHistoryRun_request, showHistoryRun_request]
    rfl
  · unfold removeDirRun
    rw [removeRunWith_request, removeRunWith_request]
    rfl
  · unfold removeFileRun
    rw [removeRunWith_request, removeRunWith_request]
    rfl

/-- C3 counterexample: `qis remove dir --id X` and `qis remove dir --all`
produce the very same effects — the same request with an empty afterPath —
so the identifier form does not request removal of only the identified
directory and the two forms are not distinguishable. -/
theorem remove_dir_forms_indistinguishable :
    removeDirRun (allIdState false "X") okEnv =
      removeDirRun (allIdState true "") okEnv := rfl

/-- C3 amended: only remove client transmits its identifier: its `--id i`
form posts `uuid=i` and is distinguishable from the `--all` form (which posts
an empty uuid) whenever `i` is non-empty; remove dir and remove file build
their requests from the global `path` that neither binds, so their `--id` and
`--all` forms produce the identical request with an empty identifier. -/
theorem remove_commands_identifier_transmission
    (a : Bool) (i : String) (env : NetEnv) (hi : i ≠ "") :
    (removeClientRun (allIdState a i) env).request =
      .post ("/api/v1/server/remove/clients?uuid=" ++ i) "application/json"
        .empty ∧
    (removeClientRun (allIdState false i) env).request ≠
      (removeClientRun (allIdState true "") env).request ∧
    removeDirRun (allIdState a i) env = removeDirRun (allIdState true "") env ∧
    removeFileRun (allIdState a i) env = removeFileRun (allIdState true "") env := by
  have hv1 : validateOptionByCommand (allIdState a i) = [] := by
    simp [validateOptionByCommand, allIdState, defaultFlags, hi]
  refine ⟨removeRunWith_request _ _ env, ?_, ?_, ?_⟩
  · intro hcontra
    unfold removeClientRun at hcontra
    rw [removeRunWith_request, removeRunWith_request] at hcontra
    simp only [Request.post.injEq] at hcontra
    have hurl : removeClientUrl (allIdState false i) =
        removeClientUrl (allIdState true "") := hcontra.1
    have hd := congrArg String.data hurl
    unfold removeClientUrl at hd
    rw [String.data_append, String.data_append] at hd
    have h2 := List.append_cancel_left hd
    exact hi (String.ext (by simpa using h2))
  · unfold removeDirRun removeRunWith
    rw [hv1]
    rfl
  · unfold removeFileRun removeRunWith
    rw [hv1]
    rfl

/-- Witness for the amended C3 at identifier `X`. -/
theorem remove_commands_identifier_transmission_witness :
    removeDirRun (allIdState false "X") okEnv =
      removeDirRun (allIdState true "") okEnv :=
  (remove_commands_identifier_transmission false "X" okEnv (by decide)).2.2.1

/-- C4 counterexample: the password-set request is identical whatever root
directory path is in the global state — the command has no flag for a path
and transmits none, so it cannot target a specific root directory identified
by its path. -/
theorem password_set_cannot_target_a_path :
    passwordSetRun { passwordState "p1" with path := "/docs" } okEnv =
      passwordSetRun { passwordState "p1" with path := "/work" } okEnv := rfl

/-- C4 amended: the password commands address the server as a whole —
`password set` posts only the new password and `password reset` posts an
empty body, with no root-directory path in either request; on the server
(modelled from the spec) SetPassword and ResetPassword overwrite only the
stored password of the addressed directory, leaving path, owner and
membership unchanged, so existing membership is unaffected and only future
joins see the new password. -/
theorem password_commands_server_wide_overwrite_only
    (pw : String) (env : NetEnv) (b : List Nat)
    (hpw : pw ≠ "") (hr : env.reqResult = .ok b) (hc : env.closeOk = true) :
    (∀ p, (passwordSetRun { passwordState pw with path := p } env).request =
      some (.post "/api/v1/server/password/set" "application/json"
        (.server pw))) ∧
    (passwordSetRun (passwordState pw) env).result = .ok ∧
    (∀ p, (passwordResetRun { passwordState pw with path := p } env).request =
      some (.post "/api/v1/server/password/reset" "application/json" .empty)) ∧
    (∀ dirs : List RootDirectory, ∀ path np : String,
      (SetPassword dirs path np).map (fun d => (d.AfterPath, d.Owner, d.UUIDs))
        = dirs.map (fun d => (d.AfterPath, d.Owner, d.UUIDs))) ∧
    (∀ dirs : List RootDirectory, ∀ path np : String,
      (SetPassword dirs path np).find? (fun d => d.AfterPath == path) =
        (dirs.find? (fun d => d.AfterPath == path)).map
          (fun d => { d with Password := np })) ∧
    (∀ dirs : List RootDirectory, ∀ path : String,
      ResetPassword dirs path = SetPassword dirs path defaultSecret) ∧
    (∀ dirs : List RootDirectory, ∀ path np old u : String, old ≠ np →
      (dirs.find? (fun d => d.AfterPath == path)).isSome = true →
      JoinRoot (SetPassword dirs path np) path u old = .error .unauthorized) ∧
    (∀ dirs : List RootDirectory, ∀ path np u : String,
      (dirs.find? (fun d => d.AfterPath == path)).isSome = true →
      ∃ dirs2, JoinRoot (SetPassword dirs path np) path u np = .ok dirs2) := by
  have hguard : (pw == "") = false := by simp [hpw]
  refine ⟨?_, ?_, ?_, SetPassword_frame, find?_SetPassword,
    fun _ _ => rfl, ?_, ?_⟩
  · intro p
    unfold passwordSetRun
    rw [show ({ passwordState pw with path := p } : FlagState).password = pw from
      rfl, hguard]
    rcases env with ⟨rr, co⟩
    cases rr with
    | error e => rfl
    | ok b2 => cases co <;> rfl
  · unfold passwordSetRun
    rw [show (passwordState pw).password = pw from rfl, hguard, hr, hc]
    rfl
  · intro p
    unfold passwordResetRun
    rcases env with ⟨rr, co⟩
    cases rr with
    | error e => rfl
    | ok b2 => cases co <;> rfl
  · intro dirs path np old u hne hfind
    exact JoinRoot_SetPassword_stale dirs path np old u hne hfind
  · intro dirs path np u hfind
    exact JoinRoot_SetPassword_fresh dirs path np u hfind

/-- Witness for the amended C4 at password `p1` and an explicit directory. -/
theorem password_commands_witness :
    (passwordSetRun { passwordState "p1" with path := "/docs" } okEnv).request =
      some (.post "/api/v1/server/password/set" "application/json"
        (.server "p1")) :=
  (password_commands_server_wide_overwrite_only "p1" okEnv []
    (by decide) rfl rfl).1 "/docs"

/-- C5 (code bug): whatever the server responds, show client prints nothing:
the decode target of UnmarshalRequestBody is a slice passed by value, so the
list the print loop ranges over is always empty and no returned client ever
appears in the output. -/
theorem show_client_prints_no_client (s : FlagState) (env : NetEnv) :
    (showClientRun s env).output = [] := by
  unfold showClientRun
  rcases env with ⟨rr, co⟩
  cases rr with
  | error e => rfl
  | ok b => cases co <;> rfl

/-- C6 counterexample: two executions of show dir with identical explicit
arguments (`--id Y`, no `--all`) but different residual values of the global
`path` variable — a flag only the download command binds — issue different
requests, so behaviour does depend on global mutable flag state. -/
theorem show_dir_depends_on_foreign_global :
    (showDirRun { allIdState false "Y" with path := "/leak" } okEnv).request ≠
      (showDirRun (allIdState false "Y") okEnv).request := by decide

/-- C6 amended: command behaviour is a function of the shared global flag
variables, not of the command's own flags alone: the show dir request is
built from the global `path`, which show dir's flags (`--all`, `--id`) never
bind, so the same explicit arguments yield different requests under different
residual global state. -/
theorem show_dir_request_reads_global_path (p i : String) (env : NetEnv) :
    (showDirRun { allIdState false i with path := p } env).request =
      .get ("/api/v1/server/logs/directories?afterPath=" ++ p) ∧
    (∀ s : FlagState, (showDirRun s env).request =
      .get ("/api/v1/server/logs/directories?afterPath=" ++ s.path)) := by
  exact ⟨showDirRun_request _ env, fun s => showDirRun_request s env⟩

/-- C7: the spec-modelled persistence adapter satisfies the contract: get
after put returns the value, put and delete leave other keys untouched, get
after delete misses, scan-by-prefix returns exactly the entries whose key
extends the byte prefix, and a scoped transaction either commits every
contained operation or leaves the store exactly unchanged. -/
theorem persistence_adapter_contract :
    (∀ st : Store, ∀ k v : List Nat, storeGet (storePut st k v) k = some v) ∧
    (∀ st : Store, ∀ k v k2 : List Nat, k2 ≠ k →
      storeGet (storePut st k v) k2 = storeGet st k2) ∧
    (∀ st : Store, ∀ k : List Nat, storeGet (storeDelete st k) k = none) ∧
    (∀ st : Store, ∀ k k2 : List Nat, k2 ≠ k →
      storeGet (storeDelete st k) k2 = storeGet st k2) ∧
    (∀ st : Store, ∀ p : List Nat, ∀ e : List Nat × List Nat,
      e ∈ prefixScan st p ↔ e ∈ st ∧ p.isPrefixOf e.1 = true) ∧
    (∀ st : Store, ∀ ops : List KvOp, ∀ conflict : Bool,
      runTransaction st ops conflict = .aborted st ∨
        runTransaction st ops conflict = .committed (ops.foldl applyOp st)) :=
  ⟨storeGet_storePut_self, storeGet_storePut_other, storeGet_storeDelete_self,
    storeGet_storeDelete_other, mem_prefixScan, runTransaction_all_or_nothing⟩

/-- Witness for C7: put then read another key on a concrete store. -/
theorem persistence_adapter_contract_witness :
    storeGet (storePut [([3], [4])] [1] [2]) [3] =
      storeGet [([3], [4])] [3] :=
  persistence_adapter_contract.2.1 [([3], [4])] [1] [2] [3] (by decide)

end Quics
